import Mathlib

/-!
Shallow embedding of the embassy time driver and the delay driver of the
esp-hal repository (src/esp-hal-common/src/embassy/time_driver.rs and
src/esp-hal-common/src/delay.rs).

Modelling conventions:
- Machine integers (u64, u128, pointers) are modelled as Nat; the null
  pointer is 0.  Where overflow matters an explicit reduction modulo 2^w
  is written.
- The hardware clock value returned by SystemTimer::now() is passed as an
  explicit parameter named now or t0.
- Hardware side effects (programming a comparator target, enabling or
  clearing an interrupt, invoking a stored callback) are recorded in an
  explicit list of Event values, since the hardware registers themselves
  live outside the provided sources.
- A Rust panic is modelled by Option.none; a normal return by Option.some.
- All driver operations run inside a single critical section, so each one
  is modelled as an atomic function on the driver state.
-/

/-- Number of alarm slots: const ALARM_COUNT: usize = 3 in time_driver.rs. -/
abbrev ALARM_COUNT : Nat := 3

/-- Model of struct AlarmState in time_driver.rs: timestamp (u64 Cell),
callback (a raw pointer Cell, really an optional fn pointer), ctx (a raw
pointer Cell) and the allocated flag. Pointers are modelled as Nat. -/
structure AlarmState where
  timestamp : Nat
  callback : Nat
  ctx : Nat
  allocated : Bool
deriving DecidableEq, Repr

/-- AlarmState::new(): timestamp = u64::MAX, callback = null, ctx = null_mut,
allocated = false. -/
def AlarmState.new : AlarmState :=
  { timestamp := 2 ^ 64 - 1, callback := 0, ctx := 0, allocated := false }

/-- Model of struct EmbassyTimer: the mutex-protected array of ALARM_COUNT
alarm slots, modelled as a length-indexed list. The three hardware Alarm
units are external and appear only through recorded events. -/
structure EmbassyTimer where
  alarms : Mathlib.Vector AlarmState ALARM_COUNT
deriving DecidableEq

/-- Initial driver state: every slot is AlarmState::new() (the static
DRIVER initializer fills the array with ALARM_STATE_NONE). -/
def EmbassyTimer.init : EmbassyTimer :=
  { alarms := Mathlib.Vector.replicate ALARM_COUNT AlarmState.new }

/-- Hardware side effects performed by the driver, recorded as events:
programming a comparator target, enabling an interrupt, clearing a pending
interrupt, and invoking a stored callback with its context. -/
inductive Event where
  | setTarget (unit : Nat) (target : Nat)
  | enableInterrupt (unit : Nat)
  | clearInterrupt (unit : Nat)
  | callbackInvoked (f : Nat) (ctx : Nat)
deriving DecidableEq, Repr

/-- Model of EmbassyTimer::trigger_alarm: read the slot's callback and ctx
cells and invoke the callback on the ctx. The state is not modified; the
invocation is recorded as an event. -/
def EmbassyTimer.trigger_alarm (s : EmbassyTimer) (n : Fin ALARM_COUNT) : List Event :=
  [Event.callbackInvoked (s.alarms.get n).callback (s.alarms.get n).ctx]

/-- Model of EmbassyTimer::on_interrupt: match on the u8 interrupt id,
clearing the matching unit's interrupt, with the wildcard arm a panic
(modelled as none); then, inside a critical section, trigger the alarm of
that id. -/
def EmbassyTimer.on_interrupt (s : EmbassyTimer) (id : Nat) : Option (List Event) :=
  match id with
  | 0 => some (Event.clearInterrupt 0 :: s.trigger_alarm 0)
  | 1 => some (Event.clearInterrupt 1 :: s.trigger_alarm 1)
  | 2 => some (Event.clearInterrupt 2 :: s.trigger_alarm 2)
  | _ => none

/-- Helper for the for-loop in allocate_alarm: scan the slots whose indexes
remain in the list; at the first slot whose allocated flag is false, set
the flag and return Some of its index (the AlarmHandle id); past the end
return None. The returned table carries the one-flag update. -/
def allocLoop (alarms : Mathlib.Vector AlarmState ALARM_COUNT) :
    List (Fin ALARM_COUNT) → Option Nat × Mathlib.Vector AlarmState ALARM_COUNT
  | [] => (none, alarms)
  | i :: rest =>
    let c := alarms.get i
    if !c.allocated then
      (some i.val, alarms.set i { c with allocated := true })
    else
      allocLoop alarms rest

/-- Model of Driver::allocate_alarm for EmbassyTimer: inside a critical
section, loop i in 0..ALARM_COUNT; the first slot with allocated == false
is marked allocated = true and its handle returned; None when all taken. -/
def EmbassyTimer.allocate_alarm (s : EmbassyTimer) : Option Nat × EmbassyTimer :=
  let r := allocLoop s.alarms (List.finRange ALARM_COUNT)
  (r.1, { alarms := r.2 })

/-- Model of Driver::set_alarm_callback for EmbassyTimer: inside a critical
section, store the function pointer and the context pointer into the slot
named by the handle. -/
def EmbassyTimer.set_alarm_callback (s : EmbassyTimer) (alarm : Fin ALARM_COUNT)
    (callback : Nat) (ctx : Nat) : EmbassyTimer :=
  let a := s.alarms.get alarm
  { alarms := s.alarms.set alarm { a with callback := callback, ctx := ctx } }

/-- Model of Driver::set_alarm for EmbassyTimer: inside a critical section,
read now = self.now(); if timestamp < now, trigger the alarm's callback and
return with the state untouched; otherwise store timestamp into the slot,
program the bound unit's comparator target and enable its interrupt. -/
def EmbassyTimer.set_alarm (s : EmbassyTimer) (now : Nat) (alarm : Fin ALARM_COUNT)
    (timestamp : Nat) : EmbassyTimer × List Event :=
  if timestamp < now then
    (s, s.trigger_alarm alarm)
  else
    let a := s.alarms.get alarm
    let s' : EmbassyTimer := { alarms := s.alarms.set alarm { a with timestamp := timestamp } }
    (s', [Event.setTarget alarm.val timestamp, Event.enableInterrupt alarm.val])

/-- Iterate allocate_alarm n times from a state, collecting the returned
handles in call order. -/
def allocSeq : Nat → EmbassyTimer → List (Option Nat)
  | 0, _ => []
  | n + 1, s =>
    let r := s.allocate_alarm
    r.1 :: allocSeq n r.2

/-- Modelled from the spec: SystemTimer::BIT_MASK, the mask of the 52-bit
hardware counter, from crate::systimer which is outside the provided
sources; the spec gives the counter bit-width mask as 2^52 - 1. -/
def SystemTimer.BIT_MASK : Nat := 2 ^ 52 - 1

/-- Raw Hz value of fugit::HertzU64::MHz(x): x megahertz is x * 1000000 Hz. -/
def HertzU64.MHz (x : Nat) : Nat := x * 1000000

/-- Frequency (raw Hz) stored by Delay::new on the esp32c3: the timer runs
at xtal_clock divided by 2.5, computed as MHz(xtal_MHz * 10 / 25). -/
def Delay.new_freq (xtal_clock_MHz : Nat) : Nat :=
  HertzU64.MHz (xtal_clock_MHz * 10 / 25)

/-- Tick count computed inside Delay::delay on the esp32c3:
clocks = (us as u64 * freq.raw()) / HertzU64::MHz(1).raw(), truncating
integer division. -/
def Delay.delay_clocks (freq : Nat) (us : Nat) : Nat :=
  (us * freq) / HertzU64.MHz 1

/-- Comparator target programmed by Delay::delay on the esp32c3: t0 is
SystemTimer::now(); target = t0 + clocks computed in u128; if the raw sum
exceeds BIT_MASK the code casts to u64 and subtracts BIT_MASK, else the
raw sum is used. The mod 2^64 models the u64 cast. -/
def Delay.delay (freq : Nat) (t0 : Nat) (us : Nat) : Nat :=
  let clocks := Delay.delay_clocks freq us
  let target := t0 + clocks
  if target > SystemTimer.BIT_MASK then
    (target % 2 ^ 64) - SystemTimer.BIT_MASK
  else
    target

/-- Trace of the calls delay_us makes to the microsecond primitive: a
single self.delay(us) call, recorded by its argument. -/
def Delay.delay_us_calls (us : Nat) : List Nat := [us]

/-- Trace of the calls delay_ms makes to the microsecond primitive:
for _ in 0 .. ms, self.delay_us(1000). -/
def Delay.delay_ms_calls : Nat → List Nat
  | 0 => []
  | n + 1 => Delay.delay_ms_calls n ++ Delay.delay_us_calls 1000

/-- Spec-side trace for the millisecond delay as the spec words it: ms
sequential invocations of the microsecond primitive with argument 1000. -/
def delay_ms_spec_calls (ms : Nat) : List Nat :=
  List.replicate ms 1000

/-- Spec-side trace of the alternative the spec rules out: a single
multiplied wait of ms * 1000 microseconds. -/
def delay_ms_single_call (ms : Nat) : List Nat :=
  [ms * 1000]

/-- A sample state for witnesses: the initial state after one allocation
(slot 0 allocated) and a callback 7 with context 8 stored into slot 0. -/
def sampleState : EmbassyTimer :=
  (EmbassyTimer.init.allocate_alarm).2.set_alarm_callback 0 7 8

/-- A sample state in which every slot has been allocated. -/
def fullState : EmbassyTimer :=
  (((EmbassyTimer.init.allocate_alarm).2.allocate_alarm).2.allocate_alarm).2

/-- C1 counterexample: the claim says a deadline at or before now (so also
deadline = now) makes set_alarm invoke the stored callback and leave the
comparator unprogrammed; but the source tests timestamp < now strictly, so
at deadline = now = 5 the driver programs the comparator, enables the
interrupt, and invokes no callback. -/
theorem set_alarm_at_now_programs_comparator :
    5 ≤ 5 ∧
    (sampleState.set_alarm 5 0 5).2 = [Event.setTarget 0 5, Event.enableInterrupt 0] ∧
    (∀ f c, Event.callbackInvoked f c ∉ (sampleState.set_alarm 5 0 5).2) := by
  have he : (sampleState.set_alarm 5 0 5).2 = [Event.setTarget 0 5, Event.enableInterrupt 0] := by
    decide
  refine ⟨le_refl 5, he, ?_⟩
  intro f c
  simp [he]

/-- C1 amended: for every state, handle and deadline STRICTLY before the
current clock value, set_alarm invokes the slot's stored callback with its
stored context synchronously before returning, leaves the state untouched,
and programs no comparator target. -/
theorem set_alarm_strictly_past_fires (s : EmbassyTimer) (now : Nat)
    (alarm : Fin ALARM_COUNT) (ts : Nat) (h : ts < now) :
    s.set_alarm now alarm ts =
      (s, [Event.callbackInvoked (s.alarms.get alarm).callback (s.alarms.get alarm).ctx]) ∧
    (∀ u t, Event.setTarget u t ∉ (s.set_alarm now alarm ts).2) := by
  have he : s.set_alarm now alarm ts =
      (s, [Event.callbackInvoked (s.alarms.get alarm).callback (s.alarms.get alarm).ctx]) := by
    simp [EmbassyTimer.set_alarm, EmbassyTimer.trigger_alarm, h]
  exact ⟨he, by simp [he]⟩

/-- C1 witness: instance of the amended theorem at sampleState with
deadline 5 strictly before now = 6. -/
theorem set_alarm_strictly_past_fires_witness :
    sampleState.set_alarm 6 0 5 =
      (sampleState, [Event.callbackInvoked (sampleState.alarms.get 0).callback
        (sampleState.alarms.get 0).ctx]) ∧
    (∀ u t, Event.setTarget u t ∉ (sampleState.set_alarm 6 0 5).2) :=
  set_alarm_strictly_past_fires sampleState 6 0 5 (by decide)

/-- C4: for every state, handle and deadline strictly greater than the
current clock value, set_alarm stores the deadline into the slot's
timestamp field, programs the bound unit's comparator to the deadline,
enables that unit's interrupt, and invokes no callback before returning. -/
theorem set_alarm_future_arms (s : EmbassyTimer) (now : Nat)
    (alarm : Fin ALARM_COUNT) (ts : Nat) (h : now < ts) :
    s.set_alarm now alarm ts =
      ({ alarms := s.alarms.set alarm { s.alarms.get alarm with timestamp := ts } },
        [Event.setTarget alarm.val ts, Event.enableInterrupt alarm.val]) ∧
    ((s.set_alarm now alarm ts).1.alarms.get alarm).timestamp = ts ∧
    (∀ f c, Event.callbackInvoked f c ∉ (s.set_alarm now alarm ts).2) := by
  have hn : ¬ ts < now := not_lt.mpr (le_of_lt h)
  have he : s.set_alarm now alarm ts =
      ({ alarms := s.alarms.set alarm { s.alarms.get alarm with timestamp := ts } },
        [Event.setTarget alarm.val ts, Event.enableInterrupt alarm.val]) := by
    simp [EmbassyTimer.set_alarm, hn]
  refine ⟨he, ?_, ?_⟩
  · rw [he]
    simp [Mathlib.Vector.get_set_same]
  · intro f c
    simp [he]

/-- C4 witness: instance of the theorem at sampleState with now = 5 and
deadline 9 strictly in the future. -/
theorem set_alarm_future_arms_witness :
    sampleState.set_alarm 5 0 9 =
      ({ alarms := sampleState.alarms.set 0 { sampleState.alarms.get 0 with timestamp := 9 } },
        [Event.setTarget (0 : Fin ALARM_COUNT).val 9, Event.enableInterrupt (0 : Fin ALARM_COUNT).val]) ∧
    ((sampleState.set_alarm 5 0 9).1.alarms.get 0).timestamp = 9 ∧
    (∀ f c, Event.callbackInvoked f c ∉ (sampleState.set_alarm 5 0 9).2) :=
  set_alarm_future_arms sampleState 5 0 9 (by decide)

/-- C10: whenever set_alarm takes the fire-immediately path (the source
comparison timestamp < now succeeds), the returned state is the input
state: every slot's fields are unchanged, and the emitted events contain
no comparator-target write and no interrupt enable. -/
theorem set_alarm_immediate_frame (s : EmbassyTimer) (now : Nat)
    (alarm : Fin ALARM_COUNT) (ts : Nat) (h : ts < now) :
    (s.set_alarm now alarm ts).1 = s ∧
    (∀ k : Fin ALARM_COUNT, ((s.set_alarm now alarm ts).1.alarms.get k) = s.alarms.get k) ∧
    (∀ u t, Event.setTarget u t ∉ (s.set_alarm now alarm ts).2) ∧
    (∀ u, Event.enableInterrupt u ∉ (s.set_alarm now alarm ts).2) := by
  have he : s.set_alarm now alarm ts = (s, s.trigger_alarm alarm) := by
    simp [EmbassyTimer.set_alarm, h]
  refine ⟨by simp [he], fun k => by simp [he], fun u t => ?_, fun u => ?_⟩
  · simp [he, EmbassyTimer.trigger_alarm]
  · simp [he, EmbassyTimer.trigger_alarm]

/-- C10 witness: instance of the frame theorem at sampleState with
deadline 3 and now = 4. -/
theorem set_alarm_immediate_frame_witness :
    (sampleState.set_alarm 4 0 3).1 = sampleState ∧
    (∀ k : Fin ALARM_COUNT, ((sampleState.set_alarm 4 0 3).1.alarms.get k) = sampleState.alarms.get k) ∧
    (∀ u t, Event.setTarget u t ∉ (sampleState.set_alarm 4 0 3).2) ∧
    (∀ u, Event.enableInterrupt u ∉ (sampleState.set_alarm 4 0 3).2) :=
  set_alarm_immediate_frame sampleState 4 0 3 (by decide)

/-- Helper: the index list scanned by allocate_alarm is 0, 1, 2. -/
theorem finRange_alarm_count : List.finRange ALARM_COUNT = [0, 1, 2] := by decide

/-- Helper: the scan skips a slot whose allocated flag is already true. -/
theorem allocLoop_cons_taken (a : Mathlib.Vector AlarmState ALARM_COUNT)
    (j : Fin ALARM_COUNT) (rest : List (Fin ALARM_COUNT))
    (h : (a.get j).allocated = true) :
    allocLoop a (j :: rest) = allocLoop a rest := by
  simp [allocLoop, h]

/-- Helper: the scan stops at a slot whose allocated flag is false, marks
it allocated and returns its index. -/
theorem allocLoop_cons_free (a : Mathlib.Vector AlarmState ALARM_COUNT)
    (j : Fin ALARM_COUNT) (rest : List (Fin ALARM_COUNT))
    (h : (a.get j).allocated = false) :
    allocLoop a (j :: rest) = (some j.val, a.set j { a.get j with allocated := true }) := by
  simp [allocLoop, h]

/-- C3: allocate_alarm returns the lowest-index slot whose allocated flag
is false and sets that flag; when every slot is allocated it returns None
and leaves the table unchanged; starting from the initial all-free table,
the first three calls return handles 0, 1, 2 and every further call
returns None. -/
theorem allocate_alarm_first_free (s : EmbassyTimer) :
    ((∀ k : Fin ALARM_COUNT, (s.alarms.get k).allocated = true) →
      s.allocate_alarm = (none, s)) ∧
    (∀ i : Fin ALARM_COUNT, (s.alarms.get i).allocated = false →
      (∀ j : Fin ALARM_COUNT, j < i → (s.alarms.get j).allocated = true) →
      s.allocate_alarm =
        (some i.val, { alarms := s.alarms.set i { s.alarms.get i with allocated := true } })) ∧
    allocSeq 5 EmbassyTimer.init = [some 0, some 1, some 2, none, none] := by
  refine ⟨?_, ?_, by decide⟩
  · intro hall
    simp only [EmbassyTimer.allocate_alarm, finRange_alarm_count]
    rw [allocLoop_cons_taken _ _ _ (hall 0), allocLoop_cons_taken _ _ _ (hall 1),
      allocLoop_cons_taken _ _ _ (hall 2)]
    rfl
  · intro i hi hbelow
    simp only [EmbassyTimer.allocate_alarm, finRange_alarm_count]
    rcases i with ⟨iv, hv⟩
    interval_cases iv
    · have hi0 : (s.alarms.get 0).allocated = false := hi
      rw [allocLoop_cons_free _ _ _ hi0]
      rfl
    · have h0 : (s.alarms.get 0).allocated = true := hbelow 0 (by simp [Fin.lt_def])
      have hi1 : (s.alarms.get 1).allocated = false := hi
      rw [allocLoop_cons_taken _ _ _ h0, allocLoop_cons_free _ _ _ hi1]
      rfl
    · have h0 : (s.alarms.get 0).allocated = true := hbelow 0 (by simp [Fin.lt_def])
      have h1 : (s.alarms.get 1).allocated = true := hbelow 1 (by simp [Fin.lt_def])
      have hi2 : (s.alarms.get 2).allocated = false := hi
      rw [allocLoop_cons_taken _ _ _ h0, allocLoop_cons_taken _ _ _ h1,
        allocLoop_cons_free _ _ _ hi2]
      rfl

/-- C3 witness: instance of the theorem at the full table (None, table
unchanged) and at the initial table (slot 0 returned). -/
theorem allocate_alarm_first_free_witness :
    fullState.allocate_alarm = (none, fullState) ∧
    EmbassyTimer.init.allocate_alarm =
      (some (0 : Fin ALARM_COUNT).val,
        { alarms := EmbassyTimer.init.alarms.set 0
            { EmbassyTimer.init.alarms.get 0 with allocated := true } }) :=
  ⟨(allocate_alarm_first_free fullState).1 (by decide),
   (allocate_alarm_first_free EmbassyTimer.init).2.1 0 (by decide) (by decide)⟩

/-- Helper for C7: the allocation scan never clears an allocated flag, for
any remaining index list. -/
theorem allocLoop_preserves_allocated (a : Mathlib.Vector AlarmState ALARM_COUNT)
    (l : List (Fin ALARM_COUNT)) (i : Fin ALARM_COUNT)
    (h : (a.get i).allocated = true) :
    (((allocLoop a l).2).get i).allocated = true := by
  induction l with
  | nil => simpa [allocLoop] using h
  | cons j rest ih =>
    by_cases hj : (a.get j).allocated = true
    · simpa [allocLoop, hj] using ih
    · simp only [allocLoop, hj, Bool.not_eq_true] at hj ⊢
      simp only [hj, Bool.not_false, if_pos]
      by_cases hij : i = j
      · subst hij
        simp [Mathlib.Vector.get_set_same]
      · rw [Mathlib.Vector.get_set_of_ne (fun hji => hij hji.symm)]
        exact h

/-- C7: once a slot's allocated flag is true, every state-returning driver
operation leaves it true: allocate_alarm, set_alarm_callback and set_alarm
never clear the flag. The operations now, trigger_alarm and on_interrupt
only read the slots and return events, so they cannot change any flag by
construction. -/
theorem allocated_flag_monotone (s : EmbassyTimer) (i : Fin ALARM_COUNT)
    (h : (s.alarms.get i).allocated = true) :
    ((s.allocate_alarm.2).alarms.get i).allocated = true ∧
    (∀ alarm cb ctx, ((s.set_alarm_callback alarm cb ctx).alarms.get i).allocated = true) ∧
    (∀ now alarm ts, (((s.set_alarm now alarm ts).1).alarms.get i).allocated = true) := by
  refine ⟨?_, ?_, ?_⟩
  · exact allocLoop_preserves_allocated s.alarms (List.finRange ALARM_COUNT) i h
  · intro alarm cb ctx
    show (((s.alarms.set alarm _).get i).allocated) = true
    by_cases hia : i = alarm
    · subst hia
      simp [Mathlib.Vector.get_set_same]
      exact h
    · rw [Mathlib.Vector.get_set_of_ne (fun hai => hia hai.symm)]
      exact h
  · intro now alarm ts
    by_cases hlt : ts < now
    · simp [EmbassyTimer.set_alarm, hlt]
      exact h
    · simp only [EmbassyTimer.set_alarm, hlt, if_neg, if_false]
      show (((s.alarms.set alarm _).get i).allocated) = true
      by_cases hia : i = alarm
      · subst hia
        simp [Mathlib.Vector.get_set_same]
        exact h
      · rw [Mathlib.Vector.get_set_of_ne (fun hai => hia hai.symm)]
        exact h

/-- C7 witness: instance of the monotonicity theorem for slot 0 of
sampleState under each operation at concrete arguments. -/
theorem allocated_flag_monotone_witness :
    ((sampleState.allocate_alarm.2).alarms.get 0).allocated = true ∧
    ((sampleState.set_alarm_callback 1 7 8).alarms.get 0).allocated = true ∧
    (((sampleState.set_alarm 5 1 9).1).alarms.get 0).allocated = true :=
  ⟨(allocated_flag_monotone sampleState 0 (by decide)).1,
   (allocated_flag_monotone sampleState 0 (by decide)).2.1 1 7 8,
   (allocated_flag_monotone sampleState 0 (by decide)).2.2 5 1 9⟩

/-- C8: storing the same callback and context twice through
set_alarm_callback ends in the same driver state as storing them once; no
other slot or field is affected. -/
theorem set_alarm_callback_idempotent (s : EmbassyTimer) (alarm : Fin ALARM_COUNT)
    (cb ctx : Nat) :
    (s.set_alarm_callback alarm cb ctx).set_alarm_callback alarm cb ctx =
      s.set_alarm_callback alarm cb ctx := by
  show EmbassyTimer.mk _ = EmbassyTimer.mk _
  congr 1
  apply Mathlib.Vector.ext
  intro m
  by_cases hm : m = alarm
  · subst hm
    simp [EmbassyTimer.set_alarm_callback, Mathlib.Vector.get_set_same]
  · simp only [EmbassyTimer.set_alarm_callback]
    rw [Mathlib.Vector.get_set_of_ne (fun h => hm h.symm),
      Mathlib.Vector.get_set_of_ne (fun h => hm h.symm)]

/-- C9: the interrupt entry point panics (modelled by none) for every
interrupt id other than 0, 1, 2, and returns normally (some) for 0, 1, 2,
where it clears that unit's interrupt and triggers its alarm. -/
theorem on_interrupt_panics_on_bad_id (s : EmbassyTimer) (id : Nat) :
    (3 ≤ id → s.on_interrupt id = none) ∧
    (id < 3 → (s.on_interrupt id).isSome = true) := by
  constructor
  · intro h3
    match id, h3 with
    | n + 3, _ => rfl
  · intro hlt
    match id, hlt with
    | 0, _ => rfl
    | 1, _ => rfl
    | 2, _ => rfl

/-- C9 witness: instance of the theorem at id = 7 (panic) and id = 1
(normal return). -/
theorem on_interrupt_panics_on_bad_id_witness :
    sampleState.on_interrupt 7 = none ∧
    (sampleState.on_interrupt 1).isSome = true :=
  ⟨(on_interrupt_panics_on_bad_id sampleState 7).1 (by decide),
   (on_interrupt_panics_on_bad_id sampleState 1).2 (by decide)⟩

/-- C2 counterexample: with the 16 MHz frequency, t0 at the bit mask and a
1 microsecond request, the raw sum t0 + 16 exceeds the mask, the source
programs target 16 (raw sum minus BIT_MASK), while the raw sum reduced
modulo 2^52 is 15; the two differ, so the programmed target is not the
claimed modulo reduction. -/
theorem delay_target_not_mod_2_pow_52 :
    SystemTimer.BIT_MASK < SystemTimer.BIT_MASK + Delay.delay_clocks (Delay.new_freq 40) 1 ∧
    Delay.delay (Delay.new_freq 40) SystemTimer.BIT_MASK 1 = 16 ∧
    (SystemTimer.BIT_MASK + Delay.delay_clocks (Delay.new_freq 40) 1) % 2 ^ 52 = 15 ∧
    Delay.delay (Delay.new_freq 40) SystemTimer.BIT_MASK 1 ≠
      (SystemTimer.BIT_MASK + Delay.delay_clocks (Delay.new_freq 40) 1) % 2 ^ 52 := by
  decide

/-- C2 amended: when the raw target t0 + ticks exceeds the hardware bit
mask (and fits the u64 cast), the programmed comparator target equals the
raw sum minus BIT_MASK = 2^52 - 1 (one more than the raw sum reduced
modulo 2^52), a value strictly less than the unwrapped sum. -/
theorem delay_target_wraps_by_bit_mask (freq t0 us : Nat)
    (h64 : t0 + Delay.delay_clocks freq us < 2 ^ 64)
    (hover : SystemTimer.BIT_MASK < t0 + Delay.delay_clocks freq us) :
    Delay.delay freq t0 us = t0 + Delay.delay_clocks freq us - SystemTimer.BIT_MASK ∧
    Delay.delay freq t0 us < t0 + Delay.delay_clocks freq us := by
  have hmod : (t0 + Delay.delay_clocks freq us) % 2 ^ 64 = t0 + Delay.delay_clocks freq us :=
    Nat.mod_eq_of_lt h64
  have he : Delay.delay freq t0 us = t0 + Delay.delay_clocks freq us - SystemTimer.BIT_MASK := by
    show (if SystemTimer.BIT_MASK < t0 + Delay.delay_clocks freq us
        then (t0 + Delay.delay_clocks freq us) % 2 ^ 64 - SystemTimer.BIT_MASK
        else t0 + Delay.delay_clocks freq us) =
      t0 + Delay.delay_clocks freq us - SystemTimer.BIT_MASK
    rw [if_pos hover, hmod]
  refine ⟨he, ?_⟩
  rw [he]
  have hmask : 0 < SystemTimer.BIT_MASK := by norm_num [SystemTimer.BIT_MASK]
  exact Nat.sub_lt (lt_of_le_of_lt (Nat.zero_le _) hover) hmask

/-- C2 witness: instance of the amended theorem at the 16 MHz frequency,
t0 at the bit mask and a 1 microsecond request. -/
theorem delay_target_wraps_by_bit_mask_witness :
    Delay.delay (Delay.new_freq 40) SystemTimer.BIT_MASK 1 =
      SystemTimer.BIT_MASK + Delay.delay_clocks (Delay.new_freq 40) 1 - SystemTimer.BIT_MASK ∧
    Delay.delay (Delay.new_freq 40) SystemTimer.BIT_MASK 1 <
      SystemTimer.BIT_MASK + Delay.delay_clocks (Delay.new_freq 40) 1 :=
  delay_target_wraps_by_bit_mask (Delay.new_freq 40) SystemTimer.BIT_MASK 1
    (by decide) (by decide)

/-- C5: the tick count used by the delay primitive is the truncating
integer quotient (us * clock_frequency_hz) / 1000000; at the 16 MHz timer
frequency derived from the 40 MHz crystal, a 1000 microsecond request
computes exactly 16000 ticks. -/
theorem delay_clocks_formula :
    (∀ freq us, Delay.delay_clocks freq us = us * freq / 1000000) ∧
    Delay.new_freq 40 = 16000000 ∧
    Delay.delay_clocks (Delay.new_freq 40) 1000 = 16000 := by
  refine ⟨fun freq us => ?_, by decide, by decide⟩
  simp [Delay.delay_clocks, HertzU64.MHz]

/-- C6: for every ms, the millisecond delay performs exactly ms sequential
invocations of the microsecond primitive with argument 1000; it is not the
single multiplied wait of ms * 1000 microseconds (they differ at ms = 2). -/
theorem delay_ms_is_repeated_delay_us :
    (∀ ms, Delay.delay_ms_calls ms = delay_ms_spec_calls ms) ∧
    Delay.delay_ms_calls 2 ≠ delay_ms_single_call 2 := by
  refine ⟨fun ms => ?_, by decide⟩
  induction ms with
  | zero => rfl
  | succ n ih =>
    show Delay.delay_ms_calls n ++ Delay.delay_us_calls 1000 = delay_ms_spec_calls (n + 1)
    rw [ih]
    simp only [delay_ms_spec_calls, Delay.delay_us_calls]
    rw [List.replicate_succ']
